import Mathlib

/-!
Shallow embedding of the roulette prediction core of `src/server.py`.

Python floats are modelled as real numbers.  The straight-line body of
`predict_for_direction` is decomposed so that every source-level local
variable (`wheel_omega`, `ball_alpha`, `t_drop`, `theta_ball`,
`relative_angle`, `pocket_offset`, `final_pocket_index`, ...) becomes a
named definition; composing them in order reproduces the source line by
line, and the intermediate quantities can be reasoned about directly.
-/

namespace RouletteTracker

/-- Fixed physical ordering of the 37 pockets (`ROULETTE_SEQUENCE` in `server.py`). -/
def ROULETTE_SEQUENCE : List ℤ :=
  [0, 32, 15, 19, 4, 21, 2, 25, 17, 34, 6, 27, 13,
   36, 11, 30, 8, 23, 10, 5, 24, 16, 33, 1, 20,
   14, 31, 9, 22, 18, 29, 7, 28, 12, 35, 3, 26]

/-- Gravitational constant `G = 9.81` from `server.py`. -/
noncomputable def G : ℝ := 9.81

/-- Track slope angle `ALPHA = 0.02` (radians) from `server.py`. -/
noncomputable def ALPHA : ℝ := 0.02

/-- String constant for the left spin direction. -/
def dirLeft : String := "left"

/-- String constant for the right spin direction. -/
def dirRight : String := "right"

/-- Request body of the `/predict_marks` endpoint (`MarksRequest` in `server.py`). -/
structure MarksRequest where
  wheel_times : List ℝ
  ball_times : List ℝ
  wheel_marks : ℤ
  ball_marks : ℤ
  mode : String := "3x3"

/-- Response body of the `/predict_marks` endpoint (`MarksResponse` in `server.py`). -/
structure MarksResponse where
  left_prediction : ℤ
  right_prediction : ℤ
  deriving DecidableEq

/-- Error message raised by `compute_predictions` on insufficient marks. -/
def insufficientMarksMsg : String := "Not enough marks to compute prediction"

/-- Embedding of `calculate_angular_velocity`: average angular frequency
(rotations per second) from mark timestamps.  The Python list comprehension
`[times[i] - times[i-1] for i in range(1, len(times))]` is the pairwise
difference of the list with its tail. -/
noncomputable def calculate_angular_velocity (times : List ℝ) : ℝ :=
  if times.length < 2 then 0.0
  else
    let periods := (times.zip times.tail).map (fun p => p.2 - p.1)
    let avg_period := periods.sum / (periods.length : ℝ)
    if avg_period > 0 then 1.0 / avg_period else 0.0

/-- Embedding of `calculate_deceleration`: estimate angular deceleration by
a least-squares fit of instantaneous angular velocity samples `2π / dt`
against the midpoint times of the consecutive timestamp pairs with positive
gap, returning the negated slope.  The Python loop builds `velocities` and
`time_points` exactly as the two maps over the filtered pair list. -/
noncomputable def calculate_deceleration (times : List ℝ) : ℝ :=
  if times.length < 3 then 0.0
  else
    let pairs := times.zip times.tail
    let valid := pairs.filter (fun p => decide (p.2 - p.1 > 0))
    let velocities := valid.map (fun p => 2 * Real.pi / (p.2 - p.1))
    let time_points := valid.map (fun p => (p.2 + p.1) / 2)
    if velocities.length < 2 then 0.0
    else
      let n : ℝ := (velocities.length : ℝ)
      let sum_x := time_points.sum
      let sum_y := velocities.sum
      let sum_xy := ((time_points.zip velocities).map (fun p => p.1 * p.2)).sum
      let sum_x2 := (time_points.map (fun x => x * x)).sum
      let denom := n * sum_x2 - sum_x * sum_x
      if denom = 0 then 0.0
      else
        let slope := (n * sum_xy - sum_x * sum_y) / denom;
        -slope

/-- Local `wheel_omega` of `predict_for_direction`, before the fallback. -/
noncomputable def wheel_omega (wheel_times : List ℝ) : ℝ :=
  2 * Real.pi * calculate_angular_velocity wheel_times

/-- Local `ball_omega` of `predict_for_direction`, before the fallback. -/
noncomputable def ball_omega (ball_times : List ℝ) : ℝ :=
  2 * Real.pi * calculate_angular_velocity ball_times

/-- Local `wheel_alpha` after the `if wheel_alpha <= 0: wheel_alpha = 0.1` fallback. -/
noncomputable def wheel_alpha_adj (wheel_times : List ℝ) : ℝ :=
  if calculate_deceleration wheel_times ≤ 0 then 0.1 else calculate_deceleration wheel_times

/-- Local `ball_alpha` after the `if ball_alpha <= 0: ball_alpha = 0.1` fallback. -/
noncomputable def ball_alpha_adj (ball_times : List ℝ) : ℝ :=
  if calculate_deceleration ball_times ≤ 0 then 0.1 else calculate_deceleration ball_times

/-- Local `wheel_omega` after the `if wheel_omega <= 0: wheel_omega = 1.0` fallback. -/
noncomputable def wheel_omega_adj (wheel_times : List ℝ) : ℝ :=
  if wheel_omega wheel_times ≤ 0 then 1.0 else wheel_omega wheel_times

/-- Local `ball_omega` after the `if ball_omega <= 0: ball_omega = 2.0` fallback. -/
noncomputable def ball_omega_adj (ball_times : List ℝ) : ℝ :=
  if ball_omega ball_times ≤ 0 then 2.0 else ball_omega ball_times

/-- Local `critical_velocity_squared = G * math.tan(ALPHA) * 0.5`. -/
noncomputable def critical_velocity_squared : ℝ := G * Real.tan ALPHA * 0.5

/-- Local `t_drop` right after the branching on the critical velocity,
before the two clamping statements. -/
noncomputable def t_drop_raw (ball_times : List ℝ) : ℝ :=
  if ball_alpha_adj ball_times > 0 ∧
      ball_omega_adj ball_times > Real.sqrt critical_velocity_squared then
    (ball_omega_adj ball_times - Real.sqrt critical_velocity_squared) / ball_alpha_adj ball_times
  else 3.0

/-- The two clamping statements `if t_drop < 0: t_drop = 3.0` and
`if t_drop > 10: t_drop = 5.0`, applied in source order. -/
noncomputable def drop_clamp (t : ℝ) : ℝ :=
  let t1 := if t < 0 then 3.0 else t
  if t1 > 10 then 5.0 else t1

/-- Local `t_drop` after both clamping statements. -/
noncomputable def t_drop (ball_times : List ℝ) : ℝ :=
  drop_clamp (t_drop_raw ball_times)

/-- Predicate `math.isfinite` in the real-number model: real numbers have
no infinities and no NaN, so the predicate is identically true. -/
def isfinite (_ : ℝ) : Bool := true

/-- Local `theta_ball = ball_omega * t_drop - 0.5 * ball_alpha * t_drop * t_drop`. -/
noncomputable def theta_ball (ball_times : List ℝ) : ℝ :=
  ball_omega_adj ball_times * t_drop ball_times -
    0.5 * ball_alpha_adj ball_times * t_drop ball_times * t_drop ball_times

/-- Local `theta_wheel = wheel_omega * t_drop - 0.5 * wheel_alpha * t_drop * t_drop`. -/
noncomputable def theta_wheel (wheel_times ball_times : List ℝ) : ℝ :=
  wheel_omega_adj wheel_times * t_drop ball_times -
    0.5 * wheel_alpha_adj wheel_times * t_drop ball_times * t_drop ball_times

/-- Local `theta_ball` after the `isfinite` fallback to `2π·3`. -/
noncomputable def theta_ball_adj (ball_times : List ℝ) : ℝ :=
  if isfinite (theta_ball ball_times) then theta_ball ball_times else 2 * Real.pi * 3

/-- Local `theta_wheel` after the `isfinite` fallback to `2π·2`. -/
noncomputable def theta_wheel_adj (wheel_times ball_times : List ℝ) : ℝ :=
  if isfinite (theta_wheel wheel_times ball_times) then theta_wheel wheel_times ball_times
  else 2 * Real.pi * 2

/-- Local `relative_angle`: sum of the travel angles for direction `"left"`,
difference for any other direction, divided by `2π`. -/
noncomputable def relative_angle (wheel_times ball_times : List ℝ) (wheel_direction : String) : ℝ :=
  if wheel_direction = "left" then
    (theta_ball_adj ball_times + theta_wheel_adj wheel_times ball_times) / (2 * Real.pi)
  else
    (theta_ball_adj ball_times - theta_wheel_adj wheel_times ball_times) / (2 * Real.pi)

/-- Local `direction_offset`: `12` for direction `"left"`, `0` otherwise. -/
def direction_offset (wheel_direction : String) : ℤ :=
  if wheel_direction = "left" then 12 else 0

/-- Local `pocket_offset = int(abs(relative_angle) * 37) % 37`.  Python `int`
truncates toward zero, which on the non-negative `abs` value is the floor. -/
noncomputable def pocket_offset (wheel_times ball_times : List ℝ) (wheel_direction : String) : ℤ :=
  (Int.floor (|relative_angle wheel_times ball_times wheel_direction| * 37)) % 37

/-- Local `scatter_offset = 5`. -/
def scatter_offset : ℤ := 5

/-- Local `final_pocket_index = (pocket_offset + scatter_offset + direction_offset) % 37`. -/
noncomputable def final_pocket_index (wheel_times ball_times : List ℝ)
    (wheel_direction : String) : ℤ :=
  (pocket_offset wheel_times ball_times wheel_direction + scatter_offset +
    direction_offset wheel_direction) % 37

/-- Embedding of `predict_for_direction`: the pocket value of the final index. -/
noncomputable def predict_for_direction (wheel_times ball_times : List ℝ)
    (wheel_direction : String) : ℤ :=
  ROULETTE_SEQUENCE.getD (final_pocket_index wheel_times ball_times wheel_direction).toNat 0

/-- Embedding of `compute_predictions`: the `ValueError` raised on
insufficient marks is modelled as the error case of `Except`. -/
noncomputable def compute_predictions (req : MarksRequest) : Except String MarksResponse :=
  if req.wheel_times.length < 2 ∨ req.ball_times.length < 2 then
    Except.error insufficientMarksMsg
  else
    Except.ok
      ⟨predict_for_direction req.wheel_times req.ball_times dirLeft,
       predict_for_direction req.wheel_times req.ball_times dirRight⟩

/-- String constant for the informational default game mode. -/
def mode3x3 : String := "3x3"

/-- String constant for an arbitrary direction value that is not a spin direction. -/
def dirUp : String := "up"

/-- Periods as worded in the specification: the successive differences
`times[i] − times[i−1]` for `i = 1, ..., len − 1`, written by index. -/
noncomputable def spec_periods (times : List ℝ) : List ℝ :=
  (List.range (times.length - 1)).map (fun i => times.getD (i + 1) 0 - times.getD i 0)

/-- Average inter-mark period as worded in the specification. -/
noncomputable def spec_avg_period (times : List ℝ) : ℝ :=
  (spec_periods times).sum / ((spec_periods times).length : ℝ)

/-- Indices of the consecutive timestamp pairs with positive gap
`times[i] − times[i−1] > 0`, as worded in the specification. -/
noncomputable def spec_sample_indices (times : List ℝ) : List ℕ :=
  (List.range (times.length - 1)).filter
    (fun i => decide (times.getD (i + 1) 0 - times.getD i 0 > 0))

/-- Velocity samples per the specification: one sample per positive-gap pair,
pairing the midpoint time `(times[i] + times[i−1]) / 2` with the
instantaneous velocity `2π / dt`. -/
noncomputable def spec_samples (times : List ℝ) : List (ℝ × ℝ) :=
  (spec_sample_indices times).map
    (fun i => ((times.getD (i + 1) 0 + times.getD i 0) / 2,
      2 * Real.pi / (times.getD (i + 1) 0 - times.getD i 0)))

/-- Least-squares deceleration per the specification: fewer than 2 valid
samples or a zero regression denominator `n·Σx² − (Σx)²` give 0, otherwise
the negated fitted slope of velocity against midpoint time. -/
noncomputable def spec_decel (times : List ℝ) : ℝ :=
  let s := spec_samples times
  if s.length < 2 then 0.0
  else
    let n : ℝ := (s.length : ℝ)
    let sum_x := (s.map (fun q => q.1)).sum
    let sum_y := (s.map (fun q => q.2)).sum
    let sum_xy := (s.map (fun q => q.1 * q.2)).sum
    let sum_x2 := (s.map (fun q => q.1 * q.1)).sum
    if n * sum_x2 - sum_x * sum_x = 0 then 0.0
    else -((n * sum_xy - sum_x * sum_y) / (n * sum_x2 - sum_x * sum_x))

theorem roulette_length : ROULETTE_SEQUENCE.length = 37 := rfl

theorem getD_emod_mem (z : ℤ) :
    ROULETTE_SEQUENCE.getD (z % 37).toNat 0 ∈ ROULETTE_SEQUENCE := by
  have h3 : (z % 37).toNat < ROULETTE_SEQUENCE.length := by
    have h1 : 0 ≤ z % 37 := Int.emod_nonneg z (by decide)
    have h2 : z % 37 < 37 := Int.emod_lt_of_pos z (by decide)
    rw [roulette_length]
    omega
  rw [List.getD_eq_getElem?_getD, List.getElem?_eq_getElem h3, Option.getD_some]
  exact List.getElem_mem h3

theorem predict_mem (wt bt : List ℝ) (d : String) :
    predict_for_direction wt bt d ∈ ROULETTE_SEQUENCE := by
  unfold predict_for_direction final_pocket_index
  exact getD_emod_mem _

theorem wheel_alpha_adj_pos (wt : List ℝ) : 0 < wheel_alpha_adj wt := by
  unfold wheel_alpha_adj
  split
  · norm_num
  · rename_i h
    exact lt_of_not_le h

theorem ball_alpha_adj_pos (bt : List ℝ) : 0 < ball_alpha_adj bt := by
  unfold ball_alpha_adj
  split
  · norm_num
  · rename_i h
    exact lt_of_not_le h

theorem wheel_omega_adj_pos (wt : List ℝ) : 0 < wheel_omega_adj wt := by
  unfold wheel_omega_adj
  split
  · norm_num
  · rename_i h
    exact lt_of_not_le h

theorem ball_omega_adj_pos (bt : List ℝ) : 0 < ball_omega_adj bt := by
  unfold ball_omega_adj
  split
  · norm_num
  · rename_i h
    exact lt_of_not_le h

theorem drop_clamp_bounds (t : ℝ) : 0 ≤ drop_clamp t ∧ drop_clamp t ≤ 10 := by
  simp only [drop_clamp]
  by_cases h1 : t < 0
  · simp only [if_pos h1]
    norm_num
  · simp only [if_neg h1]
    by_cases h2 : t > 10
    · simp only [if_pos h2]
      norm_num
    · simp only [if_neg h2]
      exact ⟨not_lt.mp h1, not_lt.mp h2⟩

/-- C10: `ROULETTE_SEQUENCE` is a permutation of `{0, ..., 36}`: it has 37
entries, no duplicates, and its entries are exactly the integers 0 to 36. -/
theorem roulette_sequence_is_permutation :
    ROULETTE_SEQUENCE.length = 37 ∧ ROULETTE_SEQUENCE.Nodup ∧
      List.Perm ROULETTE_SEQUENCE ((List.range 37).map (fun n => (n : ℤ))) :=
  ⟨rfl, by decide, by decide⟩

/-- C9: `predict_for_direction` treats every direction string other than
`"left"` exactly as `"right"`: no validation is performed, the difference
formula and direction offset 0 apply to any such value. -/
theorem predict_non_left_eq_right (wt bt : List ℝ) (d : String) (hd : d ≠ "left") :
    predict_for_direction wt bt d = predict_for_direction wt bt dirRight := by
  unfold predict_for_direction final_pocket_index pocket_offset relative_angle direction_offset
  rw [if_neg hd, if_neg hd, if_neg (show ¬ dirRight = "left" by decide),
    if_neg (show ¬ dirRight = "left" by decide)]

/-- Witness for C9 at the concrete direction string `"up"`. -/
theorem predict_non_left_eq_right_witness :
    dirUp ≠ "left" ∧
      predict_for_direction [] [] dirUp = predict_for_direction [] [] dirRight :=
  ⟨by decide, predict_non_left_eq_right [] [] dirUp (by decide)⟩

/-- C1: for every request whose two timestamp lists have length at least 2,
`compute_predictions` succeeds and both returned pocket numbers are members
of the fixed 37-element pocket sequence. -/
theorem compute_predictions_in_pocket_set (req : MarksRequest)
    (hw : 2 ≤ req.wheel_times.length) (hb : 2 ≤ req.ball_times.length) :
    ∃ resp : MarksResponse, compute_predictions req = Except.ok resp ∧
      resp.left_prediction ∈ ROULETTE_SEQUENCE ∧
      resp.right_prediction ∈ ROULETTE_SEQUENCE := by
  unfold compute_predictions
  rw [if_neg (by omega)]
  exact ⟨_, rfl, predict_mem _ _ _, predict_mem _ _ _⟩

/-- Witness for C1 at the example input from the specification. -/
theorem compute_predictions_in_pocket_set_witness :
    ∃ resp : MarksResponse,
      compute_predictions ⟨[0, 0.5, 1, 1.5], [0, 0.1, 0.22, 0.36], 4, 4, mode3x3⟩ =
        Except.ok resp ∧
      resp.left_prediction ∈ ROULETTE_SEQUENCE ∧
      resp.right_prediction ∈ ROULETTE_SEQUENCE :=
  compute_predictions_in_pocket_set _ (by decide) (by decide)

/-- C3: for every pair of timestamp lists — including non-increasing,
repeated, or zero-gap timestamps — `predict_for_direction` is total and
returns a member of the pocket sequence; every degenerate intermediate is
replaced by its fixed positive fallback, so the adjusted decelerations and
angular velocities are positive and the drop time lies in `[0, 10]`. -/
theorem predict_degenerate_safe (wt bt : List ℝ) (d : String) :
    0 < wheel_alpha_adj wt ∧ 0 < ball_alpha_adj bt ∧
    0 < wheel_omega_adj wt ∧ 0 < ball_omega_adj bt ∧
    0 ≤ t_drop bt ∧ t_drop bt ≤ 10 ∧
    predict_for_direction wt bt d ∈ ROULETTE_SEQUENCE :=
  ⟨wheel_alpha_adj_pos wt, ball_alpha_adj_pos bt, wheel_omega_adj_pos wt,
    ball_omega_adj_pos bt, (drop_clamp_bounds (t_drop_raw bt)).1,
    (drop_clamp_bounds (t_drop_raw bt)).2, predict_mem wt bt d⟩

/-- C2: `compute_predictions` fails with the insufficient-data error exactly
when either timing list has fewer than 2 entries — the test uses only the
lengths, so no numeric value is inspected in that case — and otherwise it
returns the pair of the two per-direction predictions. -/
theorem compute_predictions_error_iff (req : MarksRequest) :
    ((req.wheel_times.length < 2 ∨ req.ball_times.length < 2) →
      compute_predictions req = Except.error insufficientMarksMsg) ∧
    (2 ≤ req.wheel_times.length → 2 ≤ req.ball_times.length →
      compute_predictions req =
        Except.ok
          ⟨predict_for_direction req.wheel_times req.ball_times dirLeft,
           predict_for_direction req.wheel_times req.ball_times dirRight⟩) := by
  constructor
  · intro h
    unfold compute_predictions
    rw [if_pos h]
  · intro hw hb
    unfold compute_predictions
    rw [if_neg (by omega)]

/-- Witness for C2: a one-element wheel list errors, a valid request succeeds. -/
theorem compute_predictions_error_iff_witness :
    compute_predictions ⟨[1], [1, 2], 1, 2, mode3x3⟩ = Except.error insufficientMarksMsg ∧
    compute_predictions ⟨[0, 1], [0, 1], 2, 2, mode3x3⟩ =
      Except.ok
        ⟨predict_for_direction [0, 1] [0, 1] dirLeft,
         predict_for_direction [0, 1] [0, 1] dirRight⟩ :=
  ⟨(compute_predictions_error_iff _).1 (Or.inl (by decide)),
   (compute_predictions_error_iff _).2 (by decide) (by decide)⟩

/-- C7: direction "left" uses the sum of the travel angles over 2π with
direction offset 12, direction "right" the difference with offset 0, and the
returned pocket is the sequence entry at index
`(floor(|relative| · 37) mod 37 + 5 + direction_offset) mod 37`. -/
theorem direction_and_pocket_selection (wt bt : List ℝ) (d : String) :
    relative_angle wt bt dirLeft =
      (theta_ball_adj bt + theta_wheel_adj wt bt) / (2 * Real.pi) ∧
    direction_offset dirLeft = 12 ∧
    relative_angle wt bt dirRight =
      (theta_ball_adj bt - theta_wheel_adj wt bt) / (2 * Real.pi) ∧
    direction_offset dirRight = 0 ∧
    scatter_offset = 5 ∧
    predict_for_direction wt bt d =
      ROULETTE_SEQUENCE.getD
        ((Int.floor (|relative_angle wt bt d| * 37) % 37 + 5 +
          direction_offset d) % 37).toNat 0 := by
  refine ⟨?_, rfl, ?_, rfl, rfl, rfl⟩
  · unfold relative_angle
    rw [if_pos (show dirLeft = "left" from rfl)]
  · unfold relative_angle
    rw [if_neg (show ¬ dirRight = "left" by decide)]

theorem ALPHA_eq : ALPHA = 0.02 := rfl

theorem G_eq : G = 9.81 := rfl

theorem tan_ALPHA_gt : ALPHA < Real.tan ALPHA := by
  apply Real.lt_tan
  · rw [ALPHA_eq]
    norm_num
  · rw [ALPHA_eq]
    linarith [Real.pi_gt_three]

theorem tan_ALPHA_lt_one : Real.tan ALPHA < 1 := by
  rw [← Real.tan_pi_div_four]
  apply Real.tan_lt_tan_of_nonneg_of_lt_pi_div_two
  · rw [ALPHA_eq]
    norm_num
  · linarith [Real.pi_pos]
  · rw [ALPHA_eq]
    linarith [Real.pi_gt_three]

theorem cvs_lt : critical_velocity_squared < 4.905 := by
  have h1 := tan_ALPHA_lt_one
  simp only [critical_velocity_squared, G_eq]
  nlinarith

theorem cvs_gt : (0.098 : ℝ) < critical_velocity_squared := by
  have h1 := tan_ALPHA_gt
  rw [ALPHA_eq] at h1
  simp only [critical_velocity_squared, G_eq, ALPHA_eq]
  nlinarith

theorem sqrt_cvs_lt : Real.sqrt critical_velocity_squared < 2.3 := by
  rw [Real.sqrt_lt' (by norm_num)]
  have h := cvs_lt
  norm_num at h ⊢
  linarith

theorem sqrt_cvs_gt : (0.31 : ℝ) < Real.sqrt critical_velocity_squared := by
  have h2 : ((0.31 : ℝ)) ^ 2 < critical_velocity_squared := by
    have h := cvs_gt
    norm_num
    linarith
  calc (0.31 : ℝ) = Real.sqrt ((0.31 : ℝ) ^ 2) := by
        rw [Real.sqrt_sq (by norm_num)]
    _ < Real.sqrt critical_velocity_squared :=
        Real.sqrt_lt_sqrt (by positivity) h2

theorem cav_nil : calculate_angular_velocity [] = 0 := by
  unfold calculate_angular_velocity
  rw [if_pos (by decide)]
  norm_num

theorem decel_nil : calculate_deceleration [] = 0 := by
  unfold calculate_deceleration
  rw [if_pos (by decide)]
  norm_num

theorem wheel_omega_nil : wheel_omega [] = 0 := by
  unfold wheel_omega
  rw [cav_nil, mul_zero]

theorem ball_omega_nil : ball_omega [] = 0 := by
  unfold ball_omega
  rw [cav_nil, mul_zero]

theorem cav_zero_one : calculate_angular_velocity [0, 1] = 1 := by
  unfold calculate_angular_velocity
  rw [if_neg (by decide)]
  norm_num

theorem cav_zero_thousand : calculate_angular_velocity [0, 1000] = 1 / 1000 := by
  unfold calculate_angular_velocity
  rw [if_neg (by decide)]
  norm_num

theorem ball_omega_adj_zero_one : ball_omega_adj [0, 1] = 2 * Real.pi := by
  unfold ball_omega_adj ball_omega
  rw [cav_zero_one, mul_one, if_neg (not_le.mpr (by positivity))]

theorem ball_omega_adj_zero_thousand : ball_omega_adj [0, 1000] = 2 * Real.pi / 1000 := by
  unfold ball_omega_adj ball_omega
  rw [cav_zero_thousand, if_neg (not_le.mpr (by positivity))]
  ring

/-- C4: after the fixed-default replacements (deceleration ≤ 0 → 0.1, wheel
ω ≤ 0 → 1.0, ball ω ≤ 0 → 2.0), with v_c² = 9.81·tan(0.02)·0.5, the raw drop
time is (ball ω − √(v_c²)) / ball α when ball ω > √(v_c²) and 3.0 otherwise;
the subsequent clamps replace a negative drop time by 3.0 and a drop time
above 10 by 5.0, and the clamped value is the drop time used afterwards. -/
theorem defaults_and_drop_time (wt bt : List ℝ) (t : ℝ) :
    (calculate_deceleration wt ≤ 0 → wheel_alpha_adj wt = 0.1) ∧
    (calculate_deceleration bt ≤ 0 → ball_alpha_adj bt = 0.1) ∧
    (wheel_omega wt ≤ 0 → wheel_omega_adj wt = 1.0) ∧
    (ball_omega bt ≤ 0 → ball_omega_adj bt = 2.0) ∧
    critical_velocity_squared = 9.81 * Real.tan 0.02 * 0.5 ∧
    (Real.sqrt critical_velocity_squared < ball_omega_adj bt →
      t_drop_raw bt =
        (ball_omega_adj bt - Real.sqrt critical_velocity_squared) / ball_alpha_adj bt) ∧
    (ball_omega_adj bt ≤ Real.sqrt critical_velocity_squared → t_drop_raw bt = 3.0) ∧
    (t < 0 → drop_clamp t = 3.0) ∧
    (10 < t → drop_clamp t = 5.0) ∧
    t_drop bt = drop_clamp (t_drop_raw bt) := by
  refine ⟨?_, ?_, ?_, ?_, rfl, ?_, ?_, ?_, ?_, rfl⟩
  · intro h
    unfold wheel_alpha_adj
    rw [if_pos h]
  · intro h
    unfold ball_alpha_adj
    rw [if_pos h]
  · intro h
    unfold wheel_omega_adj
    rw [if_pos h]
  · intro h
    unfold ball_omega_adj
    rw [if_pos h]
  · intro h
    unfold t_drop_raw
    rw [if_pos ⟨ball_alpha_adj_pos bt, h⟩]
  · intro h
    unfold t_drop_raw
    rw [if_neg (fun hc => absurd hc.2 (not_lt.mpr h))]
  · intro h
    simp only [drop_clamp, if_pos h]
    norm_num
  · intro h
    simp only [drop_clamp]
    rw [if_neg (show ¬ t < 0 by linarith), if_pos (show t > 10 from h)]

/-- Witness for C4: empty lists trigger every default; `[0, 1]` takes the
drop-time formula branch, `[0, 1000]` the 3.0 branch; `-2` and `20` exercise
the two clamps. -/
theorem defaults_and_drop_time_witness :
    wheel_alpha_adj [] = 0.1 ∧ ball_alpha_adj [] = 0.1 ∧
    wheel_omega_adj [] = 1.0 ∧ ball_omega_adj [] = 2.0 ∧
    t_drop_raw [0, 1] =
      (ball_omega_adj [0, 1] - Real.sqrt critical_velocity_squared) /
        ball_alpha_adj [0, 1] ∧
    t_drop_raw [0, 1000] = 3.0 ∧
    drop_clamp (-2) = 3.0 ∧ drop_clamp 20 = 5.0 := by
  refine ⟨(defaults_and_drop_time [] [] 0).1 (le_of_eq decel_nil),
    (defaults_and_drop_time [] [] 0).2.1 (le_of_eq decel_nil),
    (defaults_and_drop_time [] [] 0).2.2.1 (le_of_eq wheel_omega_nil),
    (defaults_and_drop_time [] [] 0).2.2.2.1 (le_of_eq ball_omega_nil),
    (defaults_and_drop_time [] [0, 1] 0).2.2.2.2.2.1 ?_,
    (defaults_and_drop_time [] [0, 1000] 0).2.2.2.2.2.2.1 ?_,
    (defaults_and_drop_time [] [] (-2)).2.2.2.2.2.2.2.1 (by norm_num),
    (defaults_and_drop_time [] [] 20).2.2.2.2.2.2.2.2.1 (by norm_num)⟩
  · rw [ball_omega_adj_zero_one]
    linarith [sqrt_cvs_lt, Real.pi_gt_three]
  · rw [ball_omega_adj_zero_thousand]
    linarith [sqrt_cvs_gt, Real.pi_lt_d2]

theorem zip_tail_eq_index (times : List ℝ) :
    times.zip times.tail =
      (List.range (times.length - 1)).map
        (fun i => (times.getD i 0, times.getD (i + 1) 0)) := by
  induction times with
  | nil => rfl
  | cons a rest ih =>
    cases rest with
    | nil => rfl
    | cons b t =>
      show (a :: b :: t).zip (b :: t) = _
      rw [List.zip_cons_cons]
      have ih' : (b :: t).zip t =
          (List.range ((b :: t).length - 1)).map
            (fun i => ((b :: t).getD i 0, (b :: t).getD (i + 1) 0)) := by
        simpa using ih
      rw [ih']
      simp only [List.length_cons, Nat.add_sub_cancel, List.range_succ_eq_map,
        List.map_cons, List.map_map, List.getD_cons_zero, List.getD_cons_succ,
        Function.comp_def]

theorem periods_eq_spec (times : List ℝ) :
    (times.zip times.tail).map (fun p => p.2 - p.1) = spec_periods times := by
  rw [zip_tail_eq_index, List.map_map]
  rfl

theorem cav_eq (times : List ℝ) (h : ¬ times.length < 2) :
    calculate_angular_velocity times =
      if spec_avg_period times > 0 then 1.0 / spec_avg_period times else 0.0 := by
  simp only [calculate_angular_velocity]
  rw [if_neg h, periods_eq_spec]
  rfl

/-- C5: `calculate_angular_velocity` returns the reciprocal of the average of
the successive differences `times[i] − times[i−1]` when the list has at
least 2 elements and that average is positive, and returns 0 when the list
has fewer than 2 elements or the average period is non-positive. -/
theorem calculate_angular_velocity_spec (times : List ℝ) :
    (times.length < 2 → calculate_angular_velocity times = 0) ∧
    (2 ≤ times.length →
      (0 < spec_avg_period times →
        calculate_angular_velocity times = 1 / spec_avg_period times) ∧
      (spec_avg_period times ≤ 0 → calculate_angular_velocity times = 0)) := by
  constructor
  · intro h
    unfold calculate_angular_velocity
    rw [if_pos h]
    norm_num
  · intro h
    rw [cav_eq times (by omega)]
    constructor
    · intro hpos
      rw [if_pos hpos]
      norm_num
    · intro hng
      rw [if_neg (not_lt.mpr hng)]
      norm_num

theorem spec_avg_zero_two : spec_avg_period [0, 2] = 2 := by
  norm_num [spec_avg_period, spec_periods, List.range_succ]

theorem spec_avg_zero_negtwo : spec_avg_period [0, -2] = -2 := by
  norm_num [spec_avg_period, spec_periods, List.range_succ]

/-- Witness for C5 on a singleton, an increasing pair, and a decreasing pair. -/
theorem calculate_angular_velocity_spec_witness :
    calculate_angular_velocity [5] = 0 ∧
    calculate_angular_velocity [0, 2] = 1 / spec_avg_period [0, 2] ∧
    calculate_angular_velocity [0, -2] = 0 :=
  ⟨(calculate_angular_velocity_spec [5]).1 (by decide),
   ((calculate_angular_velocity_spec [0, 2]).2 (by decide)).1
     (by rw [spec_avg_zero_two]; norm_num),
   ((calculate_angular_velocity_spec [0, -2]).2 (by decide)).2
     (by rw [spec_avg_zero_negtwo]; norm_num)⟩

theorem getD_map_range (f : ℕ → ℝ) (n i : ℕ) (h : i < n) :
    ((List.range n).map f).getD i 0 = f i := by
  rw [List.getD_eq_getElem?_getD, List.getElem?_map, List.getElem?_range h]
  rfl

/-- C8: a list of at least 2 uniformly spaced timestamps `t0 + k·p` with
constant period `p > 0` yields velocity estimate exactly `1/p`. -/
theorem uniform_spacing_velocity (n : ℕ) (t0 p : ℝ) (hn : 2 ≤ n) (hp : 0 < p) :
    calculate_angular_velocity ((List.range n).map (fun k : ℕ => t0 + (k : ℝ) * p)) = 1 / p := by
  have hlen : ((List.range n).map (fun k : ℕ => t0 + (k : ℝ) * p)).length = n := by
    simp
  have hper : spec_periods ((List.range n).map (fun k : ℕ => t0 + (k : ℝ) * p)) =
      (List.range (n - 1)).map (fun _ => p) := by
    unfold spec_periods
    rw [hlen]
    apply List.map_congr_left
    intro i hi
    have hi' : i < n - 1 := List.mem_range.mp hi
    rw [getD_map_range _ _ _ (by omega), getD_map_range _ _ _ (by omega)]
    push_cast
    ring
  have hne : ((n - 1 : ℕ) : ℝ) ≠ 0 := Nat.cast_ne_zero.mpr (by omega)
  have havg : spec_avg_period ((List.range n).map (fun k : ℕ => t0 + (k : ℝ) * p)) = p := by
    unfold spec_avg_period
    rw [hper, List.map_const']
    simp only [List.sum_replicate, List.length_replicate, List.length_range,
      nsmul_eq_mul]
    rw [mul_div_cancel_left₀ _ hne]
  rw [cav_eq _ (by rw [hlen]; omega), havg, if_pos hp]
  norm_num

/-- Witness for C8 with two timestamps 0 and 1. -/
theorem uniform_spacing_velocity_witness :
    calculate_angular_velocity ((List.range 2).map (fun k : ℕ => (0 : ℝ) + (k : ℝ) * 1)) =
      1 / 1 :=
  uniform_spacing_velocity 2 0 1 (by norm_num) (by norm_num)

theorem valid_eq_spec (times : List ℝ) :
    (times.zip times.tail).filter (fun p => decide (p.2 - p.1 > 0)) =
      (spec_sample_indices times).map
        (fun i => (times.getD i 0, times.getD (i + 1) 0)) := by
  rw [zip_tail_eq_index, List.filter_map]
  rfl

theorem velocities_eq_spec (times : List ℝ) :
    ((times.zip times.tail).filter (fun p => decide (p.2 - p.1 > 0))).map
        (fun p => 2 * Real.pi / (p.2 - p.1)) =
      (spec_samples times).map (fun q => q.2) := by
  rw [valid_eq_spec, List.map_map]
  unfold spec_samples
  rw [List.map_map]
  rfl

theorem time_points_eq_spec (times : List ℝ) :
    ((times.zip times.tail).filter (fun p => decide (p.2 - p.1 > 0))).map
        (fun p => (p.2 + p.1) / 2) =
      (spec_samples times).map (fun q => q.1) := by
  rw [valid_eq_spec, List.map_map]
  unfold spec_samples
  rw [List.map_map]
  rfl

/-- C6: `calculate_deceleration` returns 0 for fewer than 3 timestamps and
otherwise equals the specification's regression: one sample `(midpoint,
2π/dt)` per positive-gap consecutive pair, ordinary least squares of
velocity against time, negated slope, with 0 for fewer than 2 samples or a
zero denominator. -/
theorem calculate_deceleration_spec (times : List ℝ) :
    calculate_deceleration times =
      if times.length < 3 then 0.0 else spec_decel times := by
  by_cases h3 : times.length < 3
  · unfold calculate_deceleration
    rw [if_pos h3, if_pos h3]
  · rw [if_neg h3]
    simp only [calculate_deceleration]
    rw [if_neg h3, velocities_eq_spec, time_points_eq_spec]
    simp only [spec_decel]
    rw [List.length_map, List.zip_map', List.map_map, List.map_map]
    rfl

end RouletteTracker
